import Mathlib

/-!
Verification development for the PyHDLio HDL front end.

The repository under verification ships the test suite and reporting
utilities of the PyHDLio library; the library core itself (lexer, grammar
parser, port-grouping engine, library manager and external-model converter)
is a separate submodule that is not part of the sources here.  Those parts
are therefore modelled from the design specification (spec.md); each such
definition carries a doc comment starting with `Modelled from the spec:`.
The reporting utilities (`tests/utils/reporter.py`) are present in the
sources and are embedded directly from the code.
-/

/-! ## Data model (spec §3) -/

/-- Modelled from the spec: §3 `Port` — `name`, `direction` (one of in, out,
inout, buffer, linkage), `type` (raw textual subtype indication) and an
optional raw `constraint` text.  The library core that constructs these is
not in the sources. -/
structure Port where
  name : String
  direction : String
  type : String
  constraint : Option String
deriving DecidableEq, Repr

/-- Modelled from the spec: §3 `Generic` — `name`, `type`, optional raw
`default_value` text. -/
structure Generic where
  name : String
  type : String
  default_value : Option String
deriving DecidableEq, Repr

/-- Modelled from the spec: §3 `PortGroup` — optional human label derived
from a preceding comment (absent ⇒ ungrouped/default) and an ordered
subsequence of the entity's ports. -/
structure PortGroup where
  name : Option String
  ports : List Port
deriving DecidableEq, Repr

/-- Modelled from the spec: §3 `Entity` — name, ordered generics, ordered
ports and the port groups computed by the Port-Grouping Engine. -/
structure Entity where
  name : String
  generics : List Generic
  ports : List Port
  port_groups : List PortGroup
deriving DecidableEq, Repr

/-- Modelled from the spec: the parsed-module value handed to
`report_entities` (`VHDLAST` in `tests/utils/reporter.py`): it exposes an
ordered list of entities. -/
structure VHDLAST where
  entities : List Entity
deriving DecidableEq, Repr

/-! ## Port-Grouping Engine (spec §4.6)

The grouping engine consumes the port-clause token span: the parsed port
declarations interleaved with the `Comment`/`BlankLineMarker` tokens that
the Lexer keeps as grouping signals (spec §3, §4.1). -/

/-- Modelled from the spec: the port-clause token span seen by the
Port-Grouping Engine — `Comment(text)` tokens, `BlankLineMarker` tokens and
parsed port declarations (one declaration may carry several ports expanded
from one identifier list). -/
inductive PTok where
  | comment (text : String)
  | blank
  | portDecl (ports : List Port)
deriving DecidableEq, Repr

/-- The ports contributed by one port-clause token. -/
def PTok.portsOf : PTok → List Port
  | .portDecl ps => ps
  | _ => []

/-- The ports of a port-clause token span, in declaration order. -/
def declaredPorts (toks : List PTok) : List Port :=
  (toks.map PTok.portsOf).flatten

/-- Modelled from the spec: the running state of the grouping scan (§4.6
step 1) — a pending label, the current group, whether a comment has been
seen since the last port, and the closed groups so far. -/
structure GState where
  pending : Option String
  cur : PortGroup
  commentSinceLastPort : Bool
  acc : List PortGroup
deriving Repr

/-- Modelled from the spec: one step of the grouping scan (§4.6 steps 2–4).
A comment closes a non-empty current group and becomes the pending label; a
blank-line marker with no intervening comment since the last port closes a
non-empty current group and resets the pending label; a port declaration
appends its ports to the current group, which takes the pending label if it
is still unnamed. -/
def stepTok (s : GState) : PTok → GState
  | .comment text =>
    if s.cur.ports.isEmpty then
      { s with pending := some text, commentSinceLastPort := true }
    else
      { pending := some text
        cur := ⟨none, []⟩
        commentSinceLastPort := true
        acc := s.acc ++ [s.cur] }
  | .blank =>
    if s.commentSinceLastPort then s
    else if s.cur.ports.isEmpty then { s with pending := none }
    else
      { pending := none
        cur := ⟨none, []⟩
        commentSinceLastPort := false
        acc := s.acc ++ [s.cur] }
  | .portDecl ps =>
    if ps.isEmpty then s
    else
      match s.cur.name, s.pending with
      | none, some l =>
        { pending := none
          cur := ⟨some l, s.cur.ports ++ ps⟩
          commentSinceLastPort := false
          acc := s.acc }
      | n, p =>
        { pending := p
          cur := ⟨n, s.cur.ports ++ ps⟩
          commentSinceLastPort := false
          acc := s.acc }

/-- The initial grouping state: no pending label, a fresh unnamed group. -/
def initGState : GState := ⟨none, ⟨none, []⟩, false, []⟩

/-- Modelled from the spec: §4.6 step 5 — at end of the port clause the
current group is kept only if it has at least one port. -/
def finishGroups (s : GState) : List PortGroup :=
  if s.cur.ports.isEmpty then s.acc else s.acc ++ [s.cur]

/-- Modelled from the spec: the Port-Grouping Engine (§4.6) — scan the
port-clause token span and return the port groups. -/
def runGrouping (toks : List PTok) : List PortGroup :=
  finishGroups (toks.foldl stepTok initGState)

/-- All ports of a group list, group by group in order. -/
def groupsFlatten (gs : List PortGroup) : List Port :=
  (gs.map PortGroup.ports).flatten

/-- Modelled from the spec: §4.5 AST Builder composed with §4.6 — an entity
holds the declared ports in order and the port groups computed from the
port-clause token span. -/
def buildEntity (name : String) (generics : List Generic) (toks : List PTok) : Entity :=
  { name := name
    generics := generics
    ports := declaredPorts toks
    port_groups := runGrouping toks }

/-! ### Grouping invariant lemmas -/

/-- The ports held by a grouping state: closed groups then the current group. -/
def GState.heldPorts (s : GState) : List Port :=
  groupsFlatten s.acc ++ s.cur.ports

theorem heldPorts_stepTok (s : GState) (t : PTok) :
    (stepTok s t).heldPorts = s.heldPorts ++ t.portsOf := by
  cases t with
  | comment text =>
    by_cases h : s.cur.ports.isEmpty
    · simp [stepTok, h, GState.heldPorts, PTok.portsOf]
    · simp [stepTok, h, GState.heldPorts, PTok.portsOf, groupsFlatten]
  | blank =>
    by_cases hc : s.commentSinceLastPort
    · simp [stepTok, hc, GState.heldPorts, PTok.portsOf]
    · by_cases h : s.cur.ports.isEmpty
      · simp [stepTok, hc, h, GState.heldPorts, PTok.portsOf]
      · simp [stepTok, hc, h, GState.heldPorts, PTok.portsOf, groupsFlatten]
  | portDecl ps =>
    by_cases h : ps.isEmpty
    · have : ps = [] := List.isEmpty_iff.mp h
      simp [stepTok, h, GState.heldPorts, PTok.portsOf, this]
    · cases hn : s.cur.name <;> cases hp : s.pending <;>
        simp [stepTok, h, hn, hp, GState.heldPorts, PTok.portsOf, groupsFlatten]

theorem heldPorts_foldl (toks : List PTok) :
    ∀ s : GState, (toks.foldl stepTok s).heldPorts = s.heldPorts ++ declaredPorts toks := by
  induction toks with
  | nil => intro s; simp [declaredPorts]
  | cons t rest ih =>
    intro s
    simp only [List.foldl_cons]
    rw [ih (stepTok s t), heldPorts_stepTok]
    simp [declaredPorts, List.append_assoc]

theorem groupsFlatten_finishGroups (s : GState) :
    groupsFlatten (finishGroups s) = s.heldPorts := by
  by_cases h : s.cur.ports.isEmpty
  · have : s.cur.ports = [] := List.isEmpty_iff.mp h
    simp [finishGroups, h, GState.heldPorts, this]
  · simp [finishGroups, h, GState.heldPorts, groupsFlatten]

/-- The grouping engine never loses, duplicates or reorders a port. -/
theorem groupsFlatten_runGrouping (toks : List PTok) :
    groupsFlatten (runGrouping toks) = declaredPorts toks := by
  unfold runGrouping
  rw [groupsFlatten_finishGroups, heldPorts_foldl]
  simp [initGState, GState.heldPorts, groupsFlatten]

theorem stepTok_acc_nonempty (s : GState) (t : PTok)
    (h : ∀ g ∈ s.acc, g.ports ≠ []) :
    ∀ g ∈ (stepTok s t).acc, g.ports ≠ [] := by
  cases t with
  | comment text =>
    by_cases hc : s.cur.ports.isEmpty
    · simpa [stepTok, hc] using h
    · intro g hg
      simp [stepTok, hc] at hg
      rcases hg with hg | rfl
      · exact h g hg
      · exact fun he => hc (by simp [he])
  | blank =>
    by_cases hcm : s.commentSinceLastPort
    · simpa [stepTok, hcm] using h
    · by_cases hc : s.cur.ports.isEmpty
      · simpa [stepTok, hcm, hc] using h
      · intro g hg
        simp [stepTok, hcm, hc] at hg
        rcases hg with hg | rfl
        · exact h g hg
        · exact fun he => hc (by simp [he])
  | portDecl ps =>
    by_cases hps : ps.isEmpty
    · simpa [stepTok, hps] using h
    · cases hn : s.cur.name <;> cases hp : s.pending <;>
        simpa [stepTok, hps, hn, hp] using h

theorem foldl_acc_nonempty (toks : List PTok) :
    ∀ s : GState, (∀ g ∈ s.acc, g.ports ≠ []) →
      ∀ g ∈ (toks.foldl stepTok s).acc, g.ports ≠ [] := by
  induction toks with
  | nil => intro s h; simpa using h
  | cons t rest ih =>
    intro s h
    exact ih (stepTok s t) (stepTok_acc_nonempty s t h)

/-- Every group produced by the grouping engine holds at least one port. -/
theorem runGrouping_nonempty (toks : List PTok) :
    ∀ g ∈ runGrouping toks, g.ports ≠ [] := by
  intro g hg
  unfold runGrouping finishGroups at hg
  have hacc := foldl_acc_nonempty toks initGState (by simp [initGState])
  by_cases h : (toks.foldl stepTok initGState).cur.ports.isEmpty
  · rw [if_pos h] at hg
    exact hacc g hg
  · rw [if_neg h] at hg
    simp only [List.mem_append, List.mem_singleton] at hg
    rcases hg with hg | rfl
    · exact hacc g hg
    · exact fun he => h (by simp [he])

/-! ## Port-clause line lexing (spec §4.1, §4.5)

The Lexer contract (§4.1): a fully blank line emits a `BlankLineMarker`; a
line consisting solely of a `--`-comment emits `Comment(text)` with the
text after `--` trimmed of whitespace.  A port-declaration line is handed
to the AST Builder (§4.5), which expands the comma-separated identifier
list into one Port per name with the shared mode/type.  The lexing is
written character-wise over the line. -/

/-- Whitespace characters recognised when trimming a source line. -/
def isWsChar (c : Char) : Bool := c = ' ' ∨ c = '\t' ∨ c = '\r' ∨ c = '\n'

/-- Trim leading and trailing whitespace from a character list. -/
def trimChars (cs : List Char) : List Char :=
  ((cs.dropWhile isWsChar).reverse.dropWhile isWsChar).reverse

/-- Split a character list on a separator character (the separator is
dropped; empty segments are kept). -/
def splitOnChar (sep : Char) : List Char → List (List Char)
  | [] => [[]]
  | c :: rest =>
    match splitOnChar sep rest with
    | [] => if c = sep then [[], []] else [[c]]
    | g :: gs => if c = sep then [] :: g :: gs else (c :: g) :: gs

/-- Lowercase a string character-wise (VHDL keywords match
case-insensitively, spec §4.1). -/
def lowerStr (s : String) : String := String.mk (s.toList.map Char.toLower)

/-- Modelled from the spec: the five port modes of §3/§4.5, matched
case-insensitively. -/
def portModeStrings : List String := ["in", "out", "inout", "buffer", "linkage"]

/-- Modelled from the spec: §4.5 AST Builder on one port interface-list
item `identifier_list : mode subtype_indication` (defaults and composite
constraints are outside the subset the claims exercise).  Returns one Port
per name in the identifier list, or `none` when the item is malformed
(missing colon, missing or unrecognized mode, empty name). -/
def parsePortDeclChars (cs : List Char) : Option (List Port) :=
  match splitOnChar ':' cs with
  | [names, rest] =>
    let nameList := (splitOnChar ',' names).map (fun n => String.mk (trimChars n))
    let rest1 := trimChars rest
    let rest2 := if rest1.getLast? = some ';' then rest1.dropLast else rest1
    match (splitOnChar ' ' rest2).filter (fun w => w ≠ []) with
    | mode :: tyWords =>
      let modeStr := lowerStr (String.mk mode)
      if portModeStrings.contains modeStr ∧ tyWords ≠ [] ∧
          nameList.all (fun n => ¬ n.isEmpty) then
        some (nameList.map (fun n =>
          { name := n, direction := modeStr
            type := String.mk (List.intercalate [' '] tyWords), constraint := none }))
      else none
    | [] => none
  | _ => none

/-- Modelled from the spec: classify one source line of a port clause
(§4.1) — blank line ⇒ `BlankLineMarker`; `--`-comment line ⇒ `Comment`
with trimmed text; otherwise a port declaration (a malformed line yields
no token here; in the parser it is a unit-level error). -/
def lexLineChars (cs : List Char) : Option PTok :=
  match trimChars cs with
  | [] => some .blank
  | '-' :: '-' :: rest => some (.comment (String.mk (trimChars rest)))
  | t => (parsePortDeclChars t).map .portDecl

/-- Lex the lines of a port-clause body into the grouping token span. -/
def lexPortClause (lines : List String) : List PTok :=
  lines.filterMap (fun l => lexLineChars l.toList)

/-- The port-clause body of the `grouped_vhdl_content` test fixture
(`tests/conftest.py`), line by line. -/
def groupedFixtureLines : List String :=
  [ "    -- Clock signals"
  , "    clk : in std_logic;"
  , "    clk_en : in std_logic;"
  , ""
  , "    -- Reset signals"
  , "    reset : in std_logic;"
  , "    reset_n : in std_logic;"
  , ""
  , "    -- Data ports"
  , "    data_in : in std_logic;"
  , "    data_out : out std_logic;"
  , "    data_valid : out std_logic" ]

/-! ## Version Table (spec §4.2) -/

/-- Modelled from the spec: §3 `LanguageVersion` — the supported VHDL
revisions. -/
inductive LanguageVersion where
  | VHDL_1993
  | VHDL_2000
  | VHDL_2008
  | VHDL_2019
deriving DecidableEq, Repr

/-- All supported VHDL language versions. -/
def allVersions : List LanguageVersion :=
  [.VHDL_1993, .VHDL_2000, .VHDL_2008, .VHDL_2019]

/-- Modelled from the spec: the reserved words shared by every supported
VHDL revision (representative set; §4.2). -/
def commonReservedWords : List String :=
  [ "entity", "architecture", "package", "configuration", "is", "port"
  , "generic", "end", "in", "out", "inout", "buffer", "linkage", "of"
  , "begin", "library", "use", "signal", "constant", "type", "process"
  , "if", "case", "loop", "record", "block", "component", "generate" ]

/-- Modelled from the spec: §4.2 `reserved_words(version)` — a small number
of words are revision-specific (words reserved only from a later revision
onward still tokenize as identifiers under earlier revisions). -/
def reservedWords : LanguageVersion → List String
  | .VHDL_1993 => commonReservedWords
  | .VHDL_2000 => commonReservedWords ++ ["protected"]
  | .VHDL_2008 => commonReservedWords ++ ["protected", "context", "force", "release"]
  | .VHDL_2019 =>
      commonReservedWords ++ ["protected", "context", "force", "release", "private", "view"]

/-- Modelled from the spec: the construct tags consulted through
`is_construct_available` (§4.2); the first six form the common subset. -/
inductive Construct where
  | entityHeader
  | architectureHeader
  | packageHeader
  | genericInterfaceList
  | portInterfaceList
  | basicLiterals
  | contextDecl
  | forceRelease
deriving DecidableEq, Repr

/-- The common-subset construct tags (spec §4.2). -/
def commonSubsetConstructs : List Construct :=
  [ .entityHeader, .architectureHeader, .packageHeader
  , .genericInterfaceList, .portInterfaceList, .basicLiterals ]

/-- Modelled from the spec: §4.2 `is_construct_available(version,
construct_tag)` — common-subset constructs are available under every
revision; revision-gated constructs only from VHDL-2008 onward. -/
def isConstructAvailable (v : LanguageVersion) (c : Construct) : Bool :=
  match c with
  | .contextDecl | .forceRelease =>
    match v with
    | .VHDL_1993 | .VHDL_2000 => false
    | .VHDL_2008 | .VHDL_2019 => true
  | _ => true

/-! ## Grammar Parser and Error Recovery (spec §4.3, §4.4)

The unit-level parser consumes the plain token stream (Comment and
BlankLineMarker tokens are discarded at this level, spec §3); tokens are
the lexemes as strings.  The modelled grammar subset covers entity units
with optional generic and port clauses over single-token subtype
indications — the subset the claims' fixtures exercise. -/

/-- Modelled from the spec: §4.3 top-level keywords, matched
case-insensitively. -/
def isTopLevelKeyword (t : String) : Bool :=
  ["entity", "architecture", "package", "configuration"].contains (lowerStr t)

/-- A token can serve as an identifier under a version iff it is not one of
that version's reserved words (spec §4.1/§4.2). -/
def isIdentTok (v : LanguageVersion) (t : String) : Bool :=
  ¬ t.isEmpty ∧ ¬ (reservedWords v).contains (lowerStr t)

/-- Modelled from the spec: §4.3 generic interface list — items
`name : type [:= default]` separated by `;`, closed by `)`. -/
def parseGenericItems (v : LanguageVersion) :
    List String → Except String (List Generic × List String)
  | n :: ":" :: ty :: ":=" :: d :: ";" :: rest =>
    if isIdentTok v n then
      match parseGenericItems v rest with
      | .ok (gs, rest2) => .ok ({ name := n, type := ty, default_value := some d } :: gs, rest2)
      | .error e => .error e
    else .error "generic name is not an identifier"
  | n :: ":" :: ty :: ":=" :: d :: ")" :: rest =>
    if isIdentTok v n then
      .ok ([{ name := n, type := ty, default_value := some d }], rest)
    else .error "generic name is not an identifier"
  | n :: ":" :: ty :: ";" :: rest =>
    if isIdentTok v n then
      match parseGenericItems v rest with
      | .ok (gs, rest2) => .ok ({ name := n, type := ty, default_value := none } :: gs, rest2)
      | .error e => .error e
    else .error "generic name is not an identifier"
  | n :: ":" :: ty :: ")" :: rest =>
    if isIdentTok v n then
      .ok ([{ name := n, type := ty, default_value := none }], rest)
    else .error "generic name is not an identifier"
  | _ => .error "malformed generic interface item"

/-- Modelled from the spec: §4.3 port interface list — items
`name : mode type` separated by `;`, closed by `)`; the mode must be
explicit and recognized (§4.5: an unrecognized mode is a unit-level
error). -/
def parsePortItems (v : LanguageVersion) :
    List String → Except String (List Port × List String)
  | n :: ":" :: m :: ty :: ";" :: rest =>
    if isIdentTok v n ∧ portModeStrings.contains (lowerStr m) then
      match parsePortItems v rest with
      | .ok (ps, rest2) =>
        .ok ({ name := n, direction := lowerStr m, type := ty, constraint := none } :: ps, rest2)
      | .error e => .error e
    else .error "malformed port interface item"
  | n :: ":" :: m :: ty :: ")" :: rest =>
    if isIdentTok v n ∧ portModeStrings.contains (lowerStr m) then
      .ok ([{ name := n, direction := lowerStr m, type := ty, constraint := none }], rest)
    else .error "malformed port interface item"
  | _ => .error "malformed port interface item"

/-- Modelled from the spec: the optional `generic_clause` of an entity
(§4.3). -/
def parseGenericClause (v : LanguageVersion) :
    List String → Except String (List Generic × List String)
  | "generic" :: "(" :: rest =>
    match parseGenericItems v rest with
    | .ok (gs, ";" :: rest2) => .ok (gs, rest2)
    | .ok _ => .error "expected semicolon after generic clause"
    | .error e => .error e
  | rest => .ok ([], rest)

/-- Modelled from the spec: the optional `port_clause` of an entity
(§4.3). -/
def parsePortClause (v : LanguageVersion) :
    List String → Except String (List Port × List String)
  | "port" :: "(" :: rest =>
    match parsePortItems v rest with
    | .ok (ps, ";" :: rest2) => .ok (ps, rest2)
    | .ok _ => .error "expected semicolon after port clause"
    | .error e => .error e
  | rest => .ok ([], rest)

/-- Modelled from the spec: the entity terminator
`end [entity] [name] ;` (§4.3). -/
def parseEntityEnd : List String → Except String (List String)
  | "end" :: "entity" :: ";" :: rest => .ok rest
  | "end" :: "entity" :: _ :: ";" :: rest => .ok rest
  | "end" :: ";" :: rest => .ok rest
  | "end" :: _ :: ";" :: rest => .ok rest
  | _ => .error "expected end of entity"

/-- Modelled from the spec: one entity unit (§4.3)
`entity name is [generic_clause] [port_clause] end [entity] [name] ;`;
the entity's port groups come from the grouping engine over the unit's
port-clause span (comment/blank tokens are already discarded in this
token stream, so the span is the single expanded declaration). -/
def parseEntityUnit (v : LanguageVersion) (toks : List String) :
    Except String (Entity × List String) :=
  match toks with
  | "entity" :: name :: "is" :: rest =>
    if isIdentTok v name then
      match parseGenericClause v rest with
      | .error e => .error e
      | .ok (gens, rest1) =>
        match parsePortClause v rest1 with
        | .error e => .error e
        | .ok (ps, rest2) =>
          match parseEntityEnd rest2 with
          | .error e => .error e
          | .ok rest3 =>
            .ok ({ name := name, generics := gens, ports := ps
                   port_groups := runGrouping [.portDecl ps] }, rest3)
    else .error "entity name is not an identifier"
  | _ => .error "expected an entity unit"

/-- Modelled from the spec: §4.4 resynchronization — discard tokens until
the next top-level keyword or end of input (the modelled grammar subset has
no nested block constructs, so the nesting depth is always 0). -/
def resync : List String → List String
  | [] => []
  | t :: rest => if isTopLevelKeyword t then t :: rest else resync rest

/-- Modelled from the spec: skip a `library`/`use` clause up to its
semicolon (§4.3: recognized and skipped without producing a design
unit). -/
def skipToSemicolon : List String → List String
  | [] => []
  | ";" :: rest => rest
  | _ :: rest => skipToSemicolon rest

/-- Modelled from the spec: the lenient document loop (§4.4) — attempt a
unit parse at each top-level keyword; on failure record a diagnostic
message and resynchronize; collect every successfully parsed unit.  The
fuel argument bounds the iteration (each step consumes at least one
token). -/
def parseUnitsLenientLoop (v : LanguageVersion) :
    Nat → List String → List Entity → List String → List Entity × List String
  | 0, _, acc, diags => (acc, diags)
  | _ + 1, [], acc, diags => (acc, diags)
  | fuel + 1, t :: rest, acc, diags =>
    if isTopLevelKeyword t then
      match parseEntityUnit v (t :: rest) with
      | .ok (e, rest2) => parseUnitsLenientLoop v fuel rest2 (acc ++ [e]) diags
      | .error msg => parseUnitsLenientLoop v fuel (resync rest) acc (diags ++ [msg])
    else if lowerStr t = "library" ∨ lowerStr t = "use" then
      parseUnitsLenientLoop v fuel (skipToSemicolon rest) acc diags
    else
      parseUnitsLenientLoop v fuel rest acc (diags ++ ["file-level: unexpected token"])

/-- Modelled from the spec: lenient parsing of a token stream — all
successfully parsed units plus the diagnostic list (§4.4). -/
def parseUnitsLenient (v : LanguageVersion) (toks : List String) :
    List Entity × List String :=
  parseUnitsLenientLoop v (toks.length + 1) toks [] []

/-- Modelled from the spec: the strict document loop (§4.4) — the first
diagnostic is raised as an error and parsing stops. -/
def parseUnitsStrictLoop (v : LanguageVersion) :
    Nat → List String → List Entity → Except String (List Entity)
  | 0, _, acc => .ok acc
  | _ + 1, [], acc => .ok acc
  | fuel + 1, t :: rest, acc =>
    if isTopLevelKeyword t then
      match parseEntityUnit v (t :: rest) with
      | .ok (e, rest2) => parseUnitsStrictLoop v fuel rest2 (acc ++ [e])
      | .error msg => .error msg
    else if lowerStr t = "library" ∨ lowerStr t = "use" then
      parseUnitsStrictLoop v fuel (skipToSemicolon rest) acc
    else .error "file-level: unexpected token"

/-- Modelled from the spec: `from_string(text, version)` — strict parsing
of an in-memory token stream; raises (returns `.error`) on the first
diagnostic (§6). -/
def from_string (v : LanguageVersion) (toks : List String) :
    Except String (List Entity) :=
  parseUnitsStrictLoop v (toks.length + 1) toks []

/-! ## Claim fixtures for the parser (token streams)

Modelled from the spec: §4.1 Lexer output on the test fixtures, with the
Comment and BlankLineMarker tokens already discarded as the unit-level
parser sees the stream (spec §3). -/

/-- The "mixed quality" §8 fixture (`test_hdlio_integration.py`
`test_error_recovery`): a valid `good_entity` (2 ports), a malformed
`bad_entity`, a valid `another_good` (0 ports). -/
def mixedQualityToks : List String :=
  [ "entity", "good_entity", "is", "port", "(",
    "clk", ":", "in", "std_logic", ";",
    "data", ":", "out", "std_logic", ")", ";",
    "end", "entity", "good_entity", ";",
    "entity", "bad_entity", "is", "port", "(",
    "invalid", "syntax", "here",
    "but_this_might_work", ":", "in", "std_logic", ")", ";",
    "end", "entity", "bad_entity", ";",
    "entity", "another_good", "is",
    "end", "entity", "another_good", ";" ]

/-- The §8 strict-mode failure fixture: `entity bad_syntax is port ( clk in
std_logic invalid_syntax ); end entity;` — the port item misses its
colon. -/
def badSyntaxToks : List String :=
  [ "entity", "bad_syntax", "is", "port", "(",
    "clk", "in", "std_logic", "invalid_syntax", ")", ";",
    "end", "entity", ";" ]

/-- The minimal cross-version fixture (`test_vhdl_standards.py`
`test_unified_parser_consistency`): `entity test_entity is port (clk : in
std_logic); end entity;`. -/
def minimalEntityToks : List String :=
  [ "entity", "test_entity", "is",
    "port", "(", "clk", ":", "in", "std_logic", ")", ";",
    "end", "entity", ";" ]

/-- The design-unit count and the per-unit port/generic counts obtained by
parsing the minimal entity fixture under one language version. -/
def minimalEntityCounts (v : LanguageVersion) : Nat × List (Nat × Nat) :=
  let es := (parseUnitsLenient v minimalEntityToks).1
  (es.length, es.map (fun e => (e.ports.length, e.generics.length)))

/-! ## Library/Document Manager (spec §4.7, §6) -/

/-- A source store: paths mapped to their token streams (the one initial
read of §5; a missing path is an unreadable input). -/
abbrev FileSys := List (String × List String)

/-- Read a source from the store. -/
def readSource (fs : FileSys) (path : String) : Option (List String) :=
  (fs.find? (fun e => e.1 = path)).map (fun e => e.2)

/-- Modelled from the spec: the errors of the strict single-file entry
point (§6): a missing file or the first syntax diagnostic. -/
inductive LoadError where
  | fileNotFound (path : String)
  | synErr (msg : String)
deriving DecidableEq, Repr

/-- Modelled from the spec: `from_file(path, version)` (§6) — strict:
raises file-not-found when the path cannot be read, raises the first
syntax diagnostic otherwise. -/
def from_file (fs : FileSys) (v : LanguageVersion) (path : String) :
    Except LoadError (List Entity) :=
  match readSource fs path with
  | none => .error (.fileNotFound path)
  | some toks =>
    match from_string v toks with
    | .error msg => .error (.synErr msg)
    | .ok es => .ok es

/-- Modelled from the spec: `load(path, library_name, version)` (§4.7, §6)
— lenient; never raises on a syntax error; returns the source identifier
(the path) on any success and the `none` sentinel exactly when the input
could not be read or zero design units resulted from it. -/
def load (fs : FileSys) (v : LanguageVersion) (path : String) : Option String :=
  match readSource fs path with
  | none => none
  | some toks =>
    if ((parseUnitsLenient v toks).1).isEmpty then none else some path

/-! ## External Model Converter (spec §6)

Modelled from the spec: the conversion contract of the External Model
Converter boundary, exercised by `test_pyvhdlmodel_converter.py`. -/

/-- Modelled from the spec: the classified default expression of a generic
(§6). -/
inductive DefaultExpr where
  | intLit (value : Int)
  | strLit (value : String)
  | enumLit (value : String)
deriving DecidableEq, Repr

/-- Does the text match the integer pattern `-?[0-9]+` (§6)? -/
def isIntegerPattern (t : String) : Bool :=
  match t.toList with
  | [] => false
  | '-' :: rest => ¬ rest.isEmpty ∧ rest.all Char.isDigit
  | cs => cs.all Char.isDigit

/-- The natural number denoted by a digit list. -/
def digitsToNat (cs : List Char) : Nat :=
  cs.foldl (fun a c => a * 10 + (c.toNat - 48)) 0

/-- The integer denoted by text matching `-?[0-9]+`. -/
def strToInt (t : String) : Int :=
  match t.toList with
  | '-' :: rest => -(digitsToNat rest : Int)
  | cs => (digitsToNat cs : Int)

/-- Does the text start with a double quote? -/
def startsWithQuote (t : String) : Bool :=
  match t.toList with
  | c :: _ => c = '"'
  | [] => false

/-- Does the text end with a double quote? -/
def endsWithQuote (t : String) : Bool :=
  match t.toList.getLast? with
  | some c => c = '"'
  | none => false

/-- Modelled from the spec: §6 default-expression classification —
empty/absent ⇒ no default; matches `-?[0-9]+` ⇒ integer literal with the
corresponding value; starts and ends with a double quote ⇒ string literal;
otherwise (including whitespace-only text) ⇒ identifier/enumeration
literal. -/
def convertDefaultValue (v : Option String) : Option DefaultExpr :=
  match v with
  | none => none
  | some t =>
    if t = "" then none
    else if isIntegerPattern t then some (.intLit (strToInt t))
    else if startsWithQuote t ∧ endsWithQuote t then some (.strLit t)
    else some (.enumLit t)

/-- Modelled from the spec: the canonical-model port mode (§6,
pyVHDLModel's `Mode`). -/
inductive Mode where
  | In
  | Out
  | InOut
  | Buffer
  | Linkage
deriving DecidableEq, Repr

/-- Modelled from the spec: the fixed mode table
{in→In, out→Out, inout→InOut, buffer→Buffer, linkage→Linkage} (§6). -/
def modeTable : List (String × Mode) :=
  [ ("in", .In), ("out", .Out), ("inout", .InOut)
  , ("buffer", .Buffer), ("linkage", .Linkage) ]

/-- Look a direction up in the fixed mode table. -/
def convertMode (d : String) : Option Mode :=
  (modeTable.find? (fun e => e.1 = d)).map (fun e => e.2)

/-- A canonical-model generic item. -/
structure PVMGenericItem where
  name : String
  subtypeText : String
  defaultExpr : Option DefaultExpr
deriving DecidableEq, Repr

/-- A canonical-model port item. -/
structure PVMPortItem where
  name : String
  mode : Mode
  subtypeText : String
deriving DecidableEq, Repr

/-- A canonical-model port group. -/
structure PVMPortGroup where
  name : Option String
  ports : List PVMPortItem
deriving DecidableEq, Repr

/-- A canonical-model entity. -/
structure PVMEntity where
  identifier : String
  genericItems : List PVMGenericItem
  portItems : List PVMPortItem
  portGroups : List PVMPortGroup
deriving DecidableEq, Repr

/-- Modelled from the spec: convert one Port; a direction outside the fixed
table is a per-item conversion failure, signalled by omission (§6). -/
def convertPort (p : Port) : Option PVMPortItem :=
  (convertMode p.direction).map (fun m => ⟨p.name, m, p.type⟩)

/-- Modelled from the spec: convert one Generic with its classified default
expression (§6). -/
def convertGeneric (g : Generic) : PVMGenericItem :=
  ⟨g.name, g.type, convertDefaultValue g.default_value⟩

/-- Modelled from the spec: §6 entity conversion — identifier from the
entity name, one generic item per Generic, one port item per Port (failed
items omitted), port groups mapped 1:1 preserving order and membership. -/
def convertEntity (e : Entity) : PVMEntity :=
  { identifier := e.name
    genericItems := e.generics.map convertGeneric
    portItems := e.ports.filterMap convertPort
    portGroups := e.port_groups.map (fun g => ⟨g.name, g.ports.filterMap convertPort⟩) }

/-! ## Reporter (`tests/utils/reporter.py`)

This part embeds code that is present in the sources.  Python's
`"\n".join` is embedded as `joinLines`; truthiness of an optional string
(`None` or `""` are falsy) is embedded explicitly at each use site, as in
the code. -/

/-- Python's `"\n".join` over a list of already-formatted strings. -/
def joinLines : List String → String
  | [] => ""
  | [x] => x
  | x :: y :: rest => x ++ "\n" ++ joinLines (y :: rest)

/-- `" " * indent`. -/
def spaces (n : Nat) : String := String.mk (List.replicate n ' ')

/-- `_report_ast_generics`: header, then one `- name: type[ = default]`
line per generic, or a `None` placeholder. -/
def report_generics (e : Entity) (indent : Nat) : String :=
  let istr := spaces indent
  let body :=
    if e.generics.isEmpty then [istr ++ "    None"]
    else e.generics.map (fun g =>
      let dflt :=
        match g.default_value with
        | some v => if v = "" then "" else " = " ++ v
        | none => ""
      istr ++ "    - " ++ g.name ++ ": " ++ g.type ++ dflt)
  joinLines ((istr ++ "Generics:") :: body)

/-- The flat port line `- name: direction type[ constraint]` of
`_report_ast_ports_flat` / `_report_ast_ports_grouped`. -/
def astPortLine (istr : String) (p : Port) : String :=
  let cstr :=
    match p.constraint with
    | some c => if c = "" then "" else " " ++ c
    | none => ""
  istr ++ "    - " ++ p.name ++ ": " ++ p.direction ++ " " ++ p.type ++ cstr

/-- `_report_ast_ports_flat`. -/
def report_ports_flat (e : Entity) (indent : Nat) : String :=
  let istr := spaces indent
  let body :=
    if e.ports.isEmpty then [istr ++ "    None"]
    else e.ports.map (astPortLine istr)
  joinLines ((istr ++ "Ports (flat):") :: body)

/-- The `Group i:` sections of `_report_ast_ports_grouped`
(`enumerate(..., 1)`). -/
def astGroupLines (istr : String) : Nat → List PortGroup → List String
  | _, [] => []
  | i, g :: rest =>
    (istr ++ "  Group " ++ toString i ++ ":")
      :: (g.ports.map (astPortLine istr) ++ astGroupLines istr (i + 1) rest)

/-- `_report_ast_ports_grouped`. -/
def report_ports_grouped (e : Entity) (indent : Nat) : String :=
  let istr := spaces indent
  let body :=
    if e.port_groups.isEmpty then [istr ++ "    None"]
    else astGroupLines istr 1 e.port_groups
  joinLines ((istr ++ "Ports (grouped):") :: body)

/-- `report_entity` on a PyHDLio AST entity: the `Entity:` head line and
the three subsections, joined by newlines. -/
def report_entity (e : Entity) (indent : Nat) : String :=
  let istr := spaces indent
  joinLines
    [ istr ++ "Entity: " ++ e.name
    , report_generics e (indent + 2)
    , report_ports_flat e (indent + 2)
    , report_ports_grouped e (indent + 2) ]

/-- `report_entities`: `"No entities found."` for an empty module,
otherwise one entity report per entity, joined by newlines. -/
def report_entities (m : VHDLAST) : String :=
  if m.entities.isEmpty then "No entities found."
  else joinLines (m.entities.map (fun e => report_entity e 0))

/-! ### pyVHDLModel-side reporting

The pyVHDLModel classes live in an external package; their attributes are
embedded by the shape the reporter reads: an attribute that may be absent
or falsy is an `Option` (plus an explicit truthiness flag where the code
distinguishes a falsy object from `None`). -/

/-- A `Subtype` attribute value: `none` embeds Python `None`; otherwise the
object's optional `_typeString` attribute, its truthiness (unresolved
symbols are falsy) and its `str(...)` rendering. -/
structure RSubtypeObj where
  typeString : Option String
  truthy : Bool
  str : String
deriving DecidableEq, Repr

/-- A `DefaultExpression` attribute value: truthiness and `str(...)`
rendering. -/
structure RExprObj where
  truthy : Bool
  str : String
deriving DecidableEq, Repr

/-- A pyVHDLModel `GenericConstantInterfaceItem` as read by the reporter. -/
structure RGenericItem where
  identifiers : List String
  subtype : Option RSubtypeObj
  defaultExpression : Option RExprObj
deriving DecidableEq, Repr

/-- A pyVHDLModel `PortSignalInterfaceItem` as read by the reporter:
`mode` holds `Mode.name.lower()` when `port.Mode` is truthy. -/
structure RPortItem where
  identifiers : List String
  mode : Option String
  subtype : Option RSubtypeObj
deriving DecidableEq, Repr

/-- A pyVHDLModel `PortGroup` as read by the reporter. -/
structure RPortGroup where
  portItems : List RPortItem
deriving DecidableEq, Repr

/-- A pyVHDLModel `Entity` as read by the reporter. -/
structure RPVMEntity where
  identifier : String
  genericItems : List RGenericItem
  portItems : List RPortItem
  portGroups : List RPortGroup
deriving DecidableEq, Repr

/-- `Identifiers[0] if Identifiers else "unknown"`. -/
def pvmName : List String → String
  | [] => "unknown"
  | n :: _ => n

/-- The `type_str` computation shared by the pyVHDLModel reporters:
`_typeString` when the Subtype is not `None` and has it, else
`str(Subtype)` when the Subtype is truthy, else `"unknown"`. -/
def subtypeStr : Option RSubtypeObj → String
  | some o =>
    match o.typeString with
    | some ts => ts
    | none => if o.truthy then o.str else "unknown"
  | none => "unknown"

/-- `f" = {expr}" if expr else ""`. -/
def exprSuffix : Option RExprObj → String
  | some o => if o.truthy then " = " ++ o.str else ""
  | none => ""

/-- `Mode.name.lower() if Mode else "unknown"`. -/
def pvmModeStr : Option String → String
  | some m => m
  | none => "unknown"

/-- `_report_pyvhdlmodel_generics`. -/
def report_pyvhdlmodel_generics (e : RPVMEntity) (indent : Nat) : String :=
  let istr := spaces indent
  let body :=
    if e.genericItems.isEmpty then [istr ++ "    None"]
    else e.genericItems.map (fun g =>
      istr ++ "    - " ++ pvmName g.identifiers ++ ": " ++ subtypeStr g.subtype
        ++ exprSuffix g.defaultExpression)
  joinLines ((istr ++ "Generics:") :: body)

/-- The pyVHDLModel port line `- name: direction type` shared by
`_report_pyvhdlmodel_ports_flat` and `_report_pyvhdlmodel_ports_grouped`. -/
def pvmPortLine (istr : String) (p : RPortItem) : String :=
  istr ++ "    - " ++ pvmName p.identifiers ++ ": " ++ pvmModeStr p.mode
    ++ " " ++ subtypeStr p.subtype

/-- `_report_pyvhdlmodel_ports_flat`. -/
def report_pyvhdlmodel_ports_flat (e : RPVMEntity) (indent : Nat) : String :=
  let istr := spaces indent
  let body :=
    if e.portItems.isEmpty then [istr ++ "    None"]
    else e.portItems.map (pvmPortLine istr)
  joinLines ((istr ++ "Ports (flat):") :: body)

/-- The `Group i:` sections of `_report_pyvhdlmodel_ports_grouped`. -/
def pvmGroupLines (istr : String) : Nat → List RPortGroup → List String
  | _, [] => []
  | i, g :: rest =>
    (istr ++ "  Group " ++ toString i ++ ":")
      :: (g.portItems.map (pvmPortLine istr) ++ pvmGroupLines istr (i + 1) rest)

/-- `_report_pyvhdlmodel_ports_grouped`. -/
def report_pyvhdlmodel_ports_grouped (e : RPVMEntity) (indent : Nat) : String :=
  let istr := spaces indent
  let body :=
    if e.portGroups.isEmpty then [istr ++ "    None"]
    else pvmGroupLines istr 1 e.portGroups
  joinLines ((istr ++ "Ports (grouped):") :: body)

/-- `report_entity` on a pyVHDLModel entity (the `isinstance` branch of
the overloaded `report_entity`). -/
def report_entity_pvm (e : RPVMEntity) (indent : Nat) : String :=
  let istr := spaces indent
  joinLines
    [ istr ++ "Entity: " ++ e.identifier
    , report_pyvhdlmodel_generics e (indent + 2)
    , report_pyvhdlmodel_ports_flat e (indent + 2)
    , report_pyvhdlmodel_ports_grouped e (indent + 2) ]

/-- `report_pyvhdlmodel_entities`. -/
def report_pyvhdlmodel_entities (es : List RPVMEntity) : String :=
  if es.isEmpty then "No entities found."
  else joinLines (es.map (fun e => report_entity_pvm e 0))

/-! ## Claim theorems -/

/-- Is a port-clause token a parsed port declaration? -/
def PTok.isPortDecl : PTok → Bool
  | .portDecl _ => true
  | _ => false

theorem groups_eq_nil_of_flatten_nil (gs : List PortGroup)
    (h : groupsFlatten gs = []) (hne : ∀ g ∈ gs, g.ports ≠ []) : gs = [] := by
  cases gs with
  | nil => rfl
  | cons g rest =>
    exfalso
    unfold groupsFlatten at h
    simp only [List.map_cons, List.flatten_cons, List.append_eq_nil] at h
    exact hne g (List.mem_cons_self g rest) h.1

theorem foldl_portDecl_state (toks : List PTok) :
    ∀ s : GState, toks.all PTok.isPortDecl = true →
      s.pending = none → s.cur.name = none → s.acc = [] →
      (toks.foldl stepTok s).pending = none ∧
      (toks.foldl stepTok s).cur.name = none ∧
      (toks.foldl stepTok s).acc = [] := by
  induction toks with
  | nil => intro s _ h1 h2 h3; exact ⟨h1, h2, h3⟩
  | cons t rest ih =>
    intro s hall h1 h2 h3
    simp only [List.all_cons, Bool.and_eq_true] at hall
    obtain ⟨ht, hrest⟩ := hall
    cases t with
    | comment text => simp [PTok.isPortDecl] at ht
    | blank => simp [PTok.isPortDecl] at ht
    | portDecl ps =>
      simp only [List.foldl_cons]
      by_cases hps : ps.isEmpty
      · exact ih (stepTok s (.portDecl ps)) hrest
          (by simp [stepTok, hps, h1]) (by simp [stepTok, hps, h2]) (by simp [stepTok, hps, h3])
      · exact ih (stepTok s (.portDecl ps)) hrest
          (by simp [stepTok, hps, h1, h2]) (by simp [stepTok, hps, h1, h2])
          (by simp [stepTok, hps, h1, h2, h3])

/-- C1: for every parsed Entity, `port_groups` is an ordered partition of
`ports` — concatenating the groups in order gives back `ports` exactly (so
every port appears in exactly one group, with group order and intra-group
order matching declaration order), the group sizes sum to the number of
ports, and no group is empty.  Universally quantified over the port-clause
token span, this covers entities with 0, 1 and N ports. -/
theorem C1_port_groups_partition (name : String) (gens : List Generic) (toks : List PTok) :
    groupsFlatten (buildEntity name gens toks).port_groups = (buildEntity name gens toks).ports ∧
    ((buildEntity name gens toks).port_groups.map (fun g => g.ports.length)).sum
      = (buildEntity name gens toks).ports.length ∧
    (buildEntity name gens toks).port_groups.all (fun g => !g.ports.isEmpty) = true := by
  refine ⟨?_, ?_, ?_⟩
  · simpa [buildEntity] using groupsFlatten_runGrouping toks
  · have h := congrArg List.length (groupsFlatten_runGrouping toks)
    simp only [groupsFlatten, List.length_flatten, List.map_map] at h
    simpa [buildEntity, Function.comp] using h
  · simp only [buildEntity, List.all_eq_true]
    intro g hg
    have := runGrouping_nonempty toks g hg
    simpa [List.isEmpty_iff] using this

/-- C2: lexing the grouped port clause of the `grouped_vhdl_content`
fixture ('-- Clock signals' clk/clk_en, '-- Reset signals' reset/reset_n,
'-- Data ports' data_in/data_out/data_valid, blank lines between sections)
and running the grouping engine yields exactly three groups named "Clock
signals" (2 ports), "Reset signals" (2 ports) and "Data ports" (3 ports),
totalling 7 ports, with the expected members in order. -/
theorem C2_comment_grouping :
    (runGrouping (lexPortClause groupedFixtureLines)).map (fun g => (g.name, g.ports.length)) =
      [(some "Clock signals", 2), (some "Reset signals", 2), (some "Data ports", 3)] ∧
    ((runGrouping (lexPortClause groupedFixtureLines)).map (fun g => g.ports.length)).sum = 7 ∧
    (runGrouping (lexPortClause groupedFixtureLines)).map (fun g => g.ports.map Port.name) =
      [["clk", "clk_en"], ["reset", "reset_n"], ["data_in", "data_out", "data_valid"]] := by
  decide

/-- C3: an entity whose port clause declares zero ports has an empty
`port_groups` sequence; an entity with at least one port whose port-clause
span contains no comment and no blank-line tokens has exactly one unnamed
group holding all its ports in order. -/
theorem C3_default_grouping (name : String) (gens : List Generic) (toks : List PTok) :
    ((buildEntity name gens toks).ports = [] → (buildEntity name gens toks).port_groups = []) ∧
    (toks.all PTok.isPortDecl = true → (buildEntity name gens toks).ports ≠ [] →
      (buildEntity name gens toks).port_groups =
        [{ name := none, ports := (buildEntity name gens toks).ports }]) := by
  constructor
  · intro h
    simp only [buildEntity] at h ⊢
    exact groups_eq_nil_of_flatten_nil _ (by rw [groupsFlatten_runGrouping, h])
      (runGrouping_nonempty toks)
  · intro hall hne
    simp only [buildEntity] at hne ⊢
    have hstate := foldl_portDecl_state toks initGState hall rfl rfl rfl
    have hheld := heldPorts_foldl toks initGState
    set f := toks.foldl stepTok initGState with hf
    have hcur : f.cur.ports = declaredPorts toks := by
      have : f.heldPorts = declaredPorts toks := by
        simpa [initGState, GState.heldPorts, groupsFlatten] using hheld
      simpa [GState.heldPorts, hstate.2.2, groupsFlatten] using this
    have hcureq : f.cur = { name := none, ports := declaredPorts toks } := by
      cases hc : f.cur with
      | mk n ps =>
        have h1 : n = none := by have hx := hstate.2.1; rw [hc] at hx; exact hx
        have h2 : ps = declaredPorts toks := by have hx := hcur; rw [hc] at hx; exact hx
        rw [h1, h2]
    unfold runGrouping finishGroups
    rw [← hf, hcureq, hstate.2.2]
    simp only []
    rw [if_neg (by simpa [List.isEmpty_iff] using hne)]
    simp

/-- The ports of the `simple_vhdl_content` fixture (clk, reset, data). -/
def simpleFixturePorts : List Port :=
  [ { name := "clk", direction := "in", type := "std_logic", constraint := none }
  , { name := "reset", direction := "in", type := "std_logic", constraint := none }
  , { name := "data", direction := "out", type := "std_logic", constraint := none } ]

/-- Witness for C3: the zero-port entity `empty_test` has no port groups,
and the comment-free three-port entity `simple_test` has exactly one
unnamed group with all three ports. -/
theorem C3_default_grouping_witness :
    (buildEntity "empty_test" [] []).port_groups = [] ∧
    (buildEntity "simple_test" [] [.portDecl simpleFixturePorts]).port_groups =
      [{ name := none, ports := simpleFixturePorts }] := by
  constructor
  · exact (C3_default_grouping "empty_test" [] []).1 rfl
  · have h := (C3_default_grouping "simple_test" [] [.portDecl simpleFixturePorts]).2
      (by decide) (by decide)
    simpa [buildEntity, declaredPorts, PTok.portsOf] using h

/-- C4: lenient parsing of the mixed-quality file (valid `good_entity`,
malformed `bad_entity`, valid `another_good`) yields exactly the two valid
entities — `good_entity` with 2 ports and `another_good` with 0 ports — so
the malformed unit suppresses neither the earlier nor the later valid
unit; two diagnostics are recorded for the malformed region. -/
theorem C4_error_isolation :
    (parseUnitsLenient .VHDL_2008 mixedQualityToks).1.map (fun e => (e.name, e.ports.length)) =
      [("good_entity", 2), ("another_good", 0)] ∧
    (parseUnitsLenient .VHDL_2008 mixedQualityToks).2.length = 2 := by
  decide

/-- C5: the strict entry point `from_string` applied to the `bad_syntax`
fixture (`entity bad_syntax is port ( clk in std_logic invalid_syntax );
end entity;` — the port item misses its colon) returns an error rather
than an AST. -/
theorem C5_strict_error :
    from_string .VHDL_2008 badSyntaxToks = .error "malformed port interface item" := by
  rfl

/-- C6: the lenient `load` never raises — it returns the `none` sentinel
exactly when the input is unreadable or zero design units were parsed from
it, and every successful result is the source identifier (the path); the
strict `from_file` on an unreadable path returns the file-not-found
error. -/
theorem C6_load_contract (fs : FileSys) (v : LanguageVersion) (path : String) :
    (load fs v path = none ↔
      readSource fs path = none ∨
        ∃ toks, readSource fs path = some toks ∧ (parseUnitsLenient v toks).1 = []) ∧
    (∀ id, load fs v path = some id → id = path) ∧
    (readSource fs path = none → from_file fs v path = .error (.fileNotFound path)) := by
  cases h : readSource fs path with
  | none =>
    refine ⟨?_, ?_, ?_⟩
    · simp [load, h]
    · intro id hid; simp [load, h] at hid
    · intro _; simp [from_file, h]
  | some toks =>
    refine ⟨?_, ?_, ?_⟩
    · by_cases he : ((parseUnitsLenient v toks).1).isEmpty
      · have hnil : (parseUnitsLenient v toks).1 = [] := List.isEmpty_iff.mp he
        simp [load, h, he, hnil]
      · have hnn : (parseUnitsLenient v toks).1 ≠ [] := by
          intro hx
          rw [hx] at he
          exact he rfl
        simp [load, h, he, hnn]
    · intro id hid
      by_cases he : ((parseUnitsLenient v toks).1).isEmpty
      · simp [load, h, he] at hid
      · simp [load, h, he] at hid
        exact hid.symm
    · intro hc
      simp at hc

/-- Witness for C6: on an empty source store, `load "nonexistent.vhd"`
returns the `none` sentinel and `from_file "nonexistent.vhd"` returns the
file-not-found error. -/
theorem C6_load_contract_witness :
    load [] .VHDL_2008 "nonexistent.vhd" = none ∧
    from_file [] .VHDL_2008 "nonexistent.vhd" = .error (.fileNotFound "nonexistent.vhd") :=
  ⟨((C6_load_contract [] .VHDL_2008 "nonexistent.vhd").1).mpr (Or.inl rfl),
   (C6_load_contract [] .VHDL_2008 "nonexistent.vhd").2.2 rfl⟩

/-- C7: parsing the identical minimal entity fixture under each supported
VHDL LanguageVersion (1993, 2000, 2008, 2019) yields the same design-unit
count and the same per-unit port and generic counts, and every
common-subset construct is available under every supported version. -/
theorem C7_cross_version_consistency :
    allVersions.map minimalEntityCounts =
      List.replicate 4 (minimalEntityCounts .VHDL_1993) ∧
    allVersions.all
      (fun v => commonSubsetConstructs.all (fun c => isConstructAvailable v c)) = true := by
  decide

theorem startsWithQuote_ne_empty (t : String) (h : startsWithQuote t = true) : t ≠ "" := by
  intro he
  rw [he] at h
  exact absurd h (by decide)

theorem startsWithQuote_not_integer (t : String) (h : startsWithQuote t = true) :
    isIntegerPattern t = false := by
  unfold startsWithQuote at h
  unfold isIntegerPattern
  cases ht : t.toList with
  | nil =>
    rw [ht] at h
  | cons c cs =>
    rw [ht] at h
    have hc : c = '"' := by simpa using h
    subst hc
    rfl

/-- C8: the converter's default-expression classification — absent or
empty text gives no default; text matching `-?[0-9]+` gives an integer
literal with the corresponding value (so "-42" gives −42); text starting
and ending with a double quote gives a string literal; any other non-empty
text, including whitespace-only text, gives an identifier/enumeration
literal.  The integer, string-literal and enumeration rules are each
proved universally (quoted text is never empty and never matches the
integer pattern, so the two quote hypotheses alone determine the string
case). -/
theorem C8_default_classification :
    convertDefaultValue none = none ∧
    convertDefaultValue (some "") = none ∧
    convertDefaultValue (some "-42") = some (.intLit (-42)) ∧
    convertDefaultValue (some "\"hello\"") = some (.strLit "\"hello\"") ∧
    convertDefaultValue (some "   ") = some (.enumLit "   ") ∧
    (∀ t : String, isIntegerPattern t = true →
      convertDefaultValue (some t) = some (.intLit (strToInt t))) ∧
    (∀ t : String, startsWithQuote t = true → endsWithQuote t = true →
      convertDefaultValue (some t) = some (.strLit t)) ∧
    (∀ t : String, t ≠ "" → isIntegerPattern t = false →
      ¬(startsWithQuote t = true ∧ endsWithQuote t = true) →
      convertDefaultValue (some t) = some (.enumLit t)) := by
  refine ⟨by decide, by decide, by decide, by decide, by decide, ?_, ?_, ?_⟩
  · intro t h
    have hne : ¬ t = "" := fun he => by rw [he] at h; exact absurd h (by decide)
    simp [convertDefaultValue, hne, h]
  · intro t h1 h2
    have hne : ¬ t = "" := startsWithQuote_ne_empty t h1
    have hint := startsWithQuote_not_integer t h1
    simp [convertDefaultValue, hne, hint, h1, h2]
  · intro t h1 h2 h3
    simp [convertDefaultValue, h1, h2, h3]

/-- Witness for C8: the universal integer case at "123", the universal
string-literal case at a quoted text other than "hello", and the universal
enumeration case at "IDLE". -/
theorem C8_default_classification_witness :
    convertDefaultValue (some "123") = some (.intLit 123) ∧
    convertDefaultValue (some "\"abc\"") = some (.strLit "\"abc\"") ∧
    convertDefaultValue (some "IDLE") = some (.enumLit "IDLE") :=
  ⟨(C8_default_classification.2.2.2.2.2.1 "123" (by decide)).trans (by decide),
   C8_default_classification.2.2.2.2.2.2.1 "\"abc\"" (by decide) (by decide),
   C8_default_classification.2.2.2.2.2.2.2 "IDLE" (by decide) (by decide) (by decide)⟩

theorem filterMap_eq_map_of_forall {α β : Type} (l : List α) (f : α → Option β) (g : α → β)
    (h : ∀ x ∈ l, f x = some (g x)) : l.filterMap f = l.map g := by
  induction l with
  | nil => rfl
  | cons a as ih =>
    simp only [List.filterMap_cons, h a (List.mem_cons_self a as), List.map_cons]
    rw [ih (fun x hx => h x (List.mem_cons_of_mem a hx))]

/-- C9: for every valid AST Entity (its groups partition its ports and
every port's direction is in the fixed mode table), conversion maps each
port's mode via the fixed table {in→In, out→Out, inout→InOut,
buffer→Buffer, linkage→Linkage}, producing one port item per port in
order, and maps the port groups 1:1 — the converted group list is exactly
the original group list with each group's name kept and its member ports
converted in place, so group count, group order and group membership are
preserved. -/
theorem C9_conversion_mode_and_groups (e : Entity) (md : Port → Mode)
    (hpart : groupsFlatten e.port_groups = e.ports)
    (hm : ∀ p ∈ e.ports, convertMode p.direction = some (md p)) :
    (convertMode "in" = some Mode.In ∧ convertMode "out" = some Mode.Out ∧
     convertMode "inout" = some Mode.InOut ∧ convertMode "buffer" = some Mode.Buffer ∧
     convertMode "linkage" = some Mode.Linkage) ∧
    (convertEntity e).portItems =
      e.ports.map (fun p => { name := p.name, mode := md p, subtypeText := p.type }) ∧
    (convertEntity e).portGroups =
      e.port_groups.map (fun g =>
        { name := g.name
          ports := g.ports.map (fun p =>
            { name := p.name, mode := md p, subtypeText := p.type }) }) := by
  refine ⟨by decide, ?_, ?_⟩
  · simp only [convertEntity]
    exact filterMap_eq_map_of_forall _ _ _ (fun p hp => by simp [convertPort, hm p hp])
  · simp only [convertEntity]
    apply List.map_congr_left
    intro g hg
    have hsub : ∀ p ∈ g.ports, p ∈ e.ports := by
      intro p hp
      rw [← hpart]
      unfold groupsFlatten
      exact List.mem_flatten.mpr ⟨g.ports, List.mem_map_of_mem _ hg, hp⟩
    have := filterMap_eq_map_of_forall g.ports convertPort
      (fun p => { name := p.name, mode := md p, subtypeText := p.type })
      (fun p hp => by simp [convertPort, hm p (hsub p hp)])
    rw [this]

/-- A two-port entity (clk in, count out) in one unnamed group, used to
witness the conversion claim. -/
def convFixtureEntity : Entity :=
  { name := "counter"
    generics := []
    ports :=
      [ { name := "clk", direction := "in", type := "std_logic", constraint := none }
      , { name := "count", direction := "out", type := "std_logic", constraint := none } ]
    port_groups :=
      [ { name := none
          ports :=
            [ { name := "clk", direction := "in", type := "std_logic", constraint := none }
            , { name := "count", direction := "out", type := "std_logic", constraint := none } ] } ] }

/-- The table modes of the witness entity's ports. -/
def convFixtureMode (p : Port) : Mode := if p.direction = "in" then .In else .Out

/-- Witness for C9: converting the two-port fixture entity yields the two
expected port items with modes In and Out and one converted group. -/
theorem C9_conversion_witness :
    (convertEntity convFixtureEntity).portItems =
      [ { name := "clk", mode := .In, subtypeText := "std_logic" }
      , { name := "count", mode := .Out, subtypeText := "std_logic" } ] ∧
    (convertEntity convFixtureEntity).portGroups =
      [ { name := none
          ports :=
            [ { name := "clk", mode := .In, subtypeText := "std_logic" }
            , { name := "count", mode := .Out, subtypeText := "std_logic" } ] } ] :=
  ⟨((C9_conversion_mode_and_groups convFixtureEntity convFixtureMode
      (by decide) (by decide)).2.1).trans (by decide),
   ((C9_conversion_mode_and_groups convFixtureEntity convFixtureMode
      (by decide) (by decide)).2.2).trans (by decide)⟩

theorem joinLines_data_head (x : String) (xs : List String) :
    ∃ r : List Char, (joinLines (x :: xs)).data = x.data ++ r := by
  cases xs with
  | nil => exact ⟨[], (List.append_nil _).symm⟩
  | cons y ys =>
    refine ⟨'\n' :: (joinLines (y :: ys)).data, ?_⟩
    show ((x ++ "\n") ++ joinLines (y :: ys)).data =
      x.data ++ ('\n' :: (joinLines (y :: ys)).data)
    rw [String.data_append, String.data_append, List.append_assoc]
    rfl

theorem report_entity_head (e : Entity) :
    ∃ r : List Char, (report_entity e 0).data = 'E' :: r := by
  obtain ⟨r, hr⟩ := joinLines_data_head (spaces 0 ++ "Entity: " ++ e.name)
    [report_generics e (0 + 2), report_ports_flat e (0 + 2), report_ports_grouped e (0 + 2)]
  refine ⟨('n' :: 't' :: 'i' :: 't' :: 'y' :: ':' :: ' ' :: e.name.data) ++ r, ?_⟩
  show (joinLines [spaces 0 ++ "Entity: " ++ e.name, report_generics e (0 + 2),
    report_ports_flat e (0 + 2), report_ports_grouped e (0 + 2)]).data = _
  rw [hr, String.data_append, String.data_append]
  rfl

theorem report_entities_ne_sentinel (x : Entity) (rest : List Entity) :
    report_entities ⟨x :: rest⟩ ≠ "No entities found." := by
  intro hcontra
  have h1 : report_entities ⟨x :: rest⟩ =
      joinLines (report_entity x 0 :: rest.map (fun e => report_entity e 0)) := by
    simp [report_entities]
  obtain ⟨r, hr⟩ :=
    joinLines_data_head (report_entity x 0) (rest.map (fun e => report_entity e 0))
  obtain ⟨r2, hr2⟩ := report_entity_head x
  have hdata := congrArg String.data hcontra
  rw [h1] at hdata
  rw [hr, hr2] at hdata
  have hhead := congrArg List.head? hdata
  simp at hhead

theorem report_entity_pvm_head (e : RPVMEntity) :
    ∃ r : List Char, (report_entity_pvm e 0).data = 'E' :: r := by
  obtain ⟨r, hr⟩ := joinLines_data_head (spaces 0 ++ "Entity: " ++ e.identifier)
    [report_pyvhdlmodel_generics e (0 + 2), report_pyvhdlmodel_ports_flat e (0 + 2),
      report_pyvhdlmodel_ports_grouped e (0 + 2)]
  refine ⟨('n' :: 't' :: 'i' :: 't' :: 'y' :: ':' :: ' ' :: e.identifier.data) ++ r, ?_⟩
  show (joinLines [spaces 0 ++ "Entity: " ++ e.identifier,
    report_pyvhdlmodel_generics e (0 + 2), report_pyvhdlmodel_ports_flat e (0 + 2),
    report_pyvhdlmodel_ports_grouped e (0 + 2)]).data = _
  rw [hr, String.data_append, String.data_append]
  rfl

theorem report_pvm_ne_sentinel (x : RPVMEntity) (rest : List RPVMEntity) :
    report_pyvhdlmodel_entities (x :: rest) ≠ "No entities found." := by
  intro hcontra
  have h1 : report_pyvhdlmodel_entities (x :: rest) =
      joinLines (report_entity_pvm x 0 :: rest.map (fun e => report_entity_pvm e 0)) := by
    simp [report_pyvhdlmodel_entities]
  obtain ⟨r, hr⟩ :=
    joinLines_data_head (report_entity_pvm x 0) (rest.map (fun e => report_entity_pvm e 0))
  obtain ⟨r2, hr2⟩ := report_entity_pvm_head x
  have hdata := congrArg String.data hcontra
  rw [h1] at hdata
  rw [hr, hr2] at hdata
  have hhead := congrArg List.head? hdata
  simp at hhead

/-- C10: `report_entities` and `report_pyvhdlmodel_entities` return the
exact string "No entities found." if and only if the given entity
sequence is empty; otherwise the report is the newline-join of one section
per entity in list order, each section opening with `Entity: <name>`
followed by the `Generics:`, `Ports (flat):` and `Ports (grouped):`
subsections in that order, and each subsection degenerates to its `None`
placeholder when the corresponding sequence is empty. -/
theorem C10_reporter_format (m : VHDLAST) (es : List RPVMEntity) (e : Entity) (pe : RPVMEntity) :
    (report_entities m = "No entities found." ↔ m.entities = []) ∧
    (report_pyvhdlmodel_entities es = "No entities found." ↔ es = []) ∧
    (m.entities ≠ [] →
      report_entities m = joinLines (m.entities.map (fun x => report_entity x 0))) ∧
    (es ≠ [] →
      report_pyvhdlmodel_entities es = joinLines (es.map (fun x => report_entity_pvm x 0))) ∧
    (report_entity e 0 =
      "Entity: " ++ e.name ++ "\n" ++ report_generics e 2 ++ "\n"
        ++ report_ports_flat e 2 ++ "\n" ++ report_ports_grouped e 2) ∧
    (report_entity_pvm pe 0 =
      "Entity: " ++ pe.identifier ++ "\n" ++ report_pyvhdlmodel_generics pe 2 ++ "\n"
        ++ report_pyvhdlmodel_ports_flat pe 2 ++ "\n" ++ report_pyvhdlmodel_ports_grouped pe 2) ∧
    (e.generics = [] → report_generics e 2 = "  Generics:\n      None") ∧
    (e.ports = [] → report_ports_flat e 2 = "  Ports (flat):\n      None") ∧
    (e.port_groups = [] → report_ports_grouped e 2 = "  Ports (grouped):\n      None") ∧
    (pe.genericItems = [] → report_pyvhdlmodel_generics pe 2 = "  Generics:\n      None") ∧
    (pe.portItems = [] → report_pyvhdlmodel_ports_flat pe 2 = "  Ports (flat):\n      None") ∧
    (pe.portGroups = [] →
      report_pyvhdlmodel_ports_grouped pe 2 = "  Ports (grouped):\n      None") := by
  obtain ⟨ents⟩ := m
  refine ⟨?_, ?_, ?_, ?_, ?_, ?_, ?_, ?_, ?_, ?_, ?_, ?_⟩
  · constructor
    · intro h
      cases ents with
      | nil => rfl
      | cons x rest => exact absurd h (report_entities_ne_sentinel x rest)
    · intro h
      simp only at h
      rw [h]
      rfl
  · constructor
    · intro h
      cases es with
      | nil => rfl
      | cons x rest => exact absurd h (report_pvm_ne_sentinel x rest)
    · intro h
      rw [h]
      rfl
  · intro h
    simp only at h ⊢
    simp only [report_entities]
    rw [if_neg (fun hc => h (List.isEmpty_iff.mp hc))]
  · intro h
    simp only [report_pyvhdlmodel_entities]
    rw [if_neg (fun hc => h (List.isEmpty_iff.mp hc))]
  · apply String.ext
    have hmk : ∀ cs : List Char, (String.mk cs).data = cs := fun _ => rfl
    simp [report_entity, joinLines, String.data_append, spaces, hmk, List.append_assoc]
  · apply String.ext
    have hmk : ∀ cs : List Char, (String.mk cs).data = cs := fun _ => rfl
    simp [report_entity_pvm, joinLines, String.data_append, spaces, hmk, List.append_assoc]
  · intro h
    unfold report_generics
    rw [h]
    decide
  · intro h
    unfold report_ports_flat
    rw [h]
    decide
  · intro h
    unfold report_ports_grouped
    rw [h]
    decide
  · intro h
    unfold report_pyvhdlmodel_generics
    rw [h]
    decide
  · intro h
    unfold report_pyvhdlmodel_ports_flat
    rw [h]
    decide
  · intro h
    unfold report_pyvhdlmodel_ports_grouped
    rw [h]
    decide

/-- An entity with no generics, ports or groups, for the reporter
witness. -/
def reporterFixtureEntity : Entity :=
  { name := "empty_test", generics := [], ports := [], port_groups := [] }

/-- A pyVHDLModel entity with no items, for the reporter witness. -/
def reporterFixturePVM : RPVMEntity :=
  { identifier := "empty_test", genericItems := [], portItems := [], portGroups := [] }

/-- Witness for C10: the empty module reports "No entities found." and the
empty entity's three subsections show their `None` placeholders. -/
theorem C10_reporter_format_witness :
    report_entities { entities := [] } = "No entities found." ∧
    report_generics reporterFixtureEntity 2 = "  Generics:\n      None" ∧
    report_ports_flat reporterFixtureEntity 2 = "  Ports (flat):\n      None" ∧
    report_pyvhdlmodel_ports_grouped reporterFixturePVM 2 = "  Ports (grouped):\n      None" :=
  ⟨((C10_reporter_format { entities := [] } [] reporterFixtureEntity reporterFixturePVM).1).mpr
      rfl,
   (C10_reporter_format { entities := [] } [] reporterFixtureEntity
      reporterFixturePVM).2.2.2.2.2.2.1 rfl,
   (C10_reporter_format { entities := [] } [] reporterFixtureEntity
      reporterFixturePVM).2.2.2.2.2.2.2.1 rfl,
   (C10_reporter_format { entities := [] } [] reporterFixtureEntity
      reporterFixturePVM).2.2.2.2.2.2.2.2.2.2.2 rfl⟩
